import Mathlib

/-
Shallow embedding of src/app.py (class ReconSouthAfrica), a menu-driven
OSINT lookup CLI.  Console output, the process-wide log, HTTP requests and
the geo-database handle are modelled as explicit effect lists; user input
is an environment-supplied stream; Python exceptions are modelled by an
explicit `exc` field (none = the procedure returned normally).
Timestamps in log lines are not modelled; a log entry is (severity,
message).  Prompt strings passed to input() are recorded on a separate
`prompts` channel, distinct from printed lines.
-/

/-- Severity of a log entry, from the logging calls in app.py
(logging.error / logging.info). -/
inductive Severity where
  | info
  | error
deriving DecidableEq

/-- Python exceptions that the embedded code can raise.  `systemExit` is
what the builtin exit() raises; `valueError` covers int() parse failures
and json decode errors; `keyError` / `typeError` / `indexError` arise from
dict/list subscripting and iteration. -/
inductive PyExc where
  | valueError (msg : String)
  | keyError (key : String)
  | typeError (msg : String)
  | indexError
  | systemExit
deriving DecidableEq

/-- A JSON value as produced by Response.json() in run_public_records. -/
inductive JsonVal where
  | str (s : String)
  | num (n : Int)
  | bool (b : Bool)
  | null
  | arr (elems : List JsonVal)
  | obj (fields : List (String × JsonVal))

mutual

/-- Python repr() of a JSON-derived value (used for elements printed inside
containers).  Numbers are modelled as Int. -/
def pyRepr : JsonVal → String
  | .str s => "\x27" ++ s ++ "\x27"
  | .num n => toString n
  | .bool true => "True"
  | .bool false => "False"
  | .null => "None"
  | .arr xs => "[" ++ pyReprElems xs ++ "]"
  | .obj fs => "\x7b" ++ pyReprFields fs ++ "\x7d"

/-- Comma-separated repr of list elements. -/
def pyReprElems : List JsonVal → String
  | [] => ""
  | [x] => pyRepr x
  | x :: y :: rest => pyRepr x ++ ", " ++ pyReprElems (y :: rest)

/-- Comma-separated repr of dict entries. -/
def pyReprFields : List (String × JsonVal) → String
  | [] => ""
  | [kv] => "\x27" ++ kv.1 ++ "\x27: " ++ pyRepr kv.2
  | kv :: y :: rest => "\x27" ++ kv.1 ++ "\x27: " ++ pyRepr kv.2 ++ ", " ++ pyReprFields (y :: rest)

end

/-- Python str() of a JSON-derived value, as used by print(record):
a top-level string prints raw, containers print via repr. -/
def pyStr : JsonVal → String
  | .str s => s
  | v => pyRepr v

/-- Lookup of data[key] on a dict built by json.loads: a duplicated key
keeps the last occurrence. -/
def lookupField (fields : List (String × JsonVal)) (key : String) : Option JsonVal :=
  fields.foldl (fun acc kv => if kv.1 = key then some kv.2 else acc) none

/-- Python subscript data[key] with a string key: KeyError on a dict
missing the key, TypeError on non-dict values. -/
def pyGetItem (v : JsonVal) (key : String) : Except PyExc JsonVal :=
  match v with
  | .obj fields =>
    match lookupField fields key with
    | some x => .ok x
    | none => .error (.keyError key)
  | .arr _ => .error (.typeError "list indices must be integers or slices, not str")
  | .str _ => .error (.typeError "string indices must be integers")
  | .num _ => .error (.typeError "\x27int\x27 object is not subscriptable")
  | .bool _ => .error (.typeError "\x27bool\x27 object is not subscriptable")
  | .null => .error (.typeError "\x27NoneType\x27 object is not subscriptable")

/-- Python iteration `for record in v`: lists yield elements, dicts yield
their keys, strings yield one-character strings, scalars raise TypeError. -/
def pyIterElems : JsonVal → Except PyExc (List JsonVal)
  | .arr xs => .ok xs
  | .obj fields => .ok (fields.map (fun kv => .str kv.1))
  | .str s => .ok (s.data.map (fun c => .str (String.mk [c])))
  | .num _ => .error (.typeError "\x27int\x27 object is not iterable")
  | .bool _ => .error (.typeError "\x27bool\x27 object is not iterable")
  | .null => .error (.typeError "\x27NoneType\x27 object is not iterable")

/-- The parsed HTML document abstraction (BeautifulSoup): find_all on a tag
name and CSS class yields the text of each matching element.  The parse
itself is pure, so the body carries the parsed form directly. -/
structure HtmlDoc where
  findAllTexts : String → String → List String

/-- The body of an HTTP response: its parsed-HTML view and its json() view
(none models a body that is not valid JSON, so that response.json()
raises a ValueError / json.JSONDecodeError). -/
structure HttpBody where
  html : HtmlDoc
  json : Option JsonVal

/-- Outcome of the single requests.get call inside make_request: either the
transport layer raises a RequestException (connection error, timeout, ...)
or a response with some status code arrives. -/
inductive HttpOutcome where
  | transportError (msg : String)
  | response (status : Nat) (body : HttpBody)

/-- Message text of the HTTPError that Response.raise_for_status raises for
a 4xx/5xx status (the server-supplied reason phrase is abstracted away). -/
def httpErrorMsg (status : Nat) (url : String) : String :=
  if status < 500 then toString status ++ " Client Error for url: " ++ url
  else toString status ++ " Server Error for url: " ++ url

/-- Result of one make_request call: the returned value (None on failure),
the console lines it printed, the log entries it wrote, and the number of
GET attempts it made. -/
structure MkReqRes where
  result : Option (Nat × HttpBody)
  lines : List String
  logs : List (Severity × String)
  attempts : Nat

/-- ReconSouthAfrica.make_request: one requests.get; raise_for_status
raises HTTPError (a RequestException) exactly for 4xx/5xx statuses; any
RequestException is caught, logged at error severity, echoed to the
console, and None is returned. -/
def make_request (url : String) (http : HttpOutcome) : MkReqRes :=
  match http with
  | .transportError msg =>
    ⟨none, ["Request failed: " ++ msg], [(.error, "Request failed: " ++ msg)], 1⟩
  | .response status body =>
    if 400 ≤ status ∧ status < 600 then
      ⟨none, ["Request failed: " ++ httpErrorMsg status url],
       [(.error, "Request failed: " ++ httpErrorMsg status url)], 1⟩
    else
      ⟨some (status, body), [], [], 1⟩

/-- Outcome of the geoip2 interaction in run_ip_geolocation: the Reader
constructor can raise (missing or malformed GeoLite2-City.mmdb), the
city() lookup can raise (for example AddressNotFound), or a record is
found.  Latitude and longitude are carried as their printed decimal text,
since the program only ever interpolates them into output. -/
inductive GeoOutcome where
  | openError (msg : String)
  | lookupError (msg : String)
  | found (city country : Option String) (lat lon : String)

/-- Python str() of an optional name field: None prints as the word None. -/
def pyOptStr : Option String → String
  | none => "None"
  | some s => s

/-- Observable behaviour of one action-procedure call: printed lines,
input() prompt texts, log entries, URLs fetched, geo-database reader
acquisitions and releases, and the exception it raised (none = returned
normally). -/
structure ActionOut where
  lines : List String
  prompts : List String
  logs : List (Severity × String)
  requests : List String
  geoOpened : Nat
  geoClosed : Nat
  exc : Option PyExc
deriving DecidableEq

/-- Environment of one menu-loop iteration: the answers the user will give
to successive input() prompts inside the action, the outcome of the one
HTTP GET an action may perform, and the outcome of the one geo-database
interaction an action may perform. -/
structure ActionEnv where
  inputs : Nat → String
  http : HttpOutcome
  geo : GeoOutcome

/-- Environment seen by a nested procedure after the caller has consumed
one line of user input. -/
def shiftInputs (env : ActionEnv) : ActionEnv :=
  ⟨fun i => env.inputs (i + 1), env.http, env.geo⟩

/-- Common shape of the HTML-scraping actions (prompt, one GET, on success
print a header then the text of each element matching a fixed tag/class
selector, on failure print a single failure line).  The source's
`if response:` test uses Response truthiness (status outside 4xx/5xx),
which holds for every response make_request returns, so it coincides with
the None test modelled here. -/
def runHtmlLookup (promptText url header failLine tag cls : String)
    (http : HttpOutcome) : ActionOut :=
  let r := make_request url http
  match r.result with
  | some sb => ⟨r.lines ++ header :: sb.2.html.findAllTexts tag cls,
                [promptText], r.logs, [url], 0, 0, none⟩
  | none => ⟨r.lines ++ [failLine], [promptText], r.logs, [url], 0, 0, none⟩

/-- ReconSouthAfrica.run_domain_lookup. -/
def run_domain_lookup (env : ActionEnv) : ActionOut :=
  let domain := env.inputs 0
  runHtmlLookup "Enter the domain to lookup: "
    ("https://www.za-example.com/domain-lookup/" ++ domain)
    ("Domain Information for " ++ domain ++ ":")
    ("Failed to retrieve data for " ++ domain)
    "div" "domain-info" env.http

/-- ReconSouthAfrica.run_ip_geolocation: `with geoip2.database.Reader(...)`
scopes the reader (geoOpened/geoClosed count acquisitions and releases);
the whole body is wrapped in `except Exception`, which logs and prints the
failure and returns normally. -/
def run_ip_geolocation (env : ActionEnv) : ActionOut :=
  let ip := env.inputs 0
  let promptT := ["Enter the IP address to geolocate: "]
  match env.geo with
  | .openError msg =>
    ⟨["Failed to geolocate IP address " ++ ip ++ ": " ++ msg], promptT,
     [(.error, "Failed to geolocate IP address " ++ ip ++ ": " ++ msg)], [], 0, 0, none⟩
  | .lookupError msg =>
    ⟨["Failed to geolocate IP address " ++ ip ++ ": " ++ msg], promptT,
     [(.error, "Failed to geolocate IP address " ++ ip ++ ": " ++ msg)], [], 1, 1, none⟩
  | .found city country lat lon =>
    ⟨["Geolocation for IP " ++ ip ++ ":",
      "City: " ++ pyOptStr city,
      "Country: " ++ pyOptStr country,
      "Latitude: " ++ lat,
      "Longitude: " ++ lon], promptT, [], [], 1, 1, none⟩

/-- ReconSouthAfrica.run_public_records: response.json() may raise
ValueError; data[\x27records\x27] may raise KeyError or TypeError; the
iteration may raise TypeError; none of these is caught here, so they
escape through `exc`.  The header line is printed after json() and before
the subscript, exactly as in the source. -/
def run_public_records (env : ActionEnv) : ActionOut :=
  let name := env.inputs 0
  let url := "https://www.sa-publicrecords-example.com/search?name=" ++ name
  let promptT := ["Enter the name to search public records: "]
  let r := make_request url env.http
  match r.result with
  | none =>
    ⟨r.lines ++ ["Failed to retrieve public records for " ++ name],
     promptT, r.logs, [url], 0, 0, none⟩
  | some sb =>
    match sb.2.json with
    | none =>
      ⟨r.lines, promptT, r.logs, [url], 0, 0,
       some (.valueError "Expecting value: line 1 column 1 (char 0)")⟩
    | some data =>
      let header := "Public Records for " ++ name ++ ":"
      match pyGetItem data "records" with
      | .error e => ⟨r.lines ++ [header], promptT, r.logs, [url], 0, 0, some e⟩
      | .ok recs =>
        match pyIterElems recs with
        | .error e => ⟨r.lines ++ [header], promptT, r.logs, [url], 0, 0, some e⟩
        | .ok elems =>
          ⟨r.lines ++ header :: elems.map pyStr, promptT, r.logs, [url], 0, 0, none⟩

/-- ReconSouthAfrica.run_reverse_image_search. -/
def run_reverse_image_search (env : ActionEnv) : ActionOut :=
  let image_url := env.inputs 0
  runHtmlLookup "Enter the image URL for reverse image search: "
    ("https://tineye.com/search?url=" ++ image_url)
    ("Reverse Image Search Results for " ++ image_url ++ ":")
    ("Failed to perform reverse image search for " ++ image_url)
    "div" "result" env.http

/-- ReconSouthAfrica.run_saps_wanted_missing. -/
def run_saps_wanted_missing (env : ActionEnv) : ActionOut :=
  let search_term := env.inputs 0
  runHtmlLookup "Enter the search term for SAPS wanted/missing persons: "
    ("https://www.saps.gov.za/crimestop/wanted/search.php?q=" ++ search_term)
    ("SAPS Wanted/Missing Persons for " ++ search_term ++ ":")
    ("Failed to retrieve SAPS wanted/missing persons for " ++ search_term)
    "div" "person-info" env.http

/-- ReconSouthAfrica.run_international_wanted_missing. -/
def run_international_wanted_missing (env : ActionEnv) : ActionOut :=
  let search_term := env.inputs 0
  runHtmlLookup "Enter the search term for international wanted/missing persons: "
    ("https://www.interpol.int/en/How-we-work/Notices/View-Red-Notices?q=" ++ search_term)
    ("International Wanted/Missing Persons for " ++ search_term ++ ":")
    ("Failed to retrieve international wanted/missing persons for " ++ search_term)
    "div" "result" env.http

/-- ReconSouthAfrica.run_social_network_search (parameterised by the
search_type the menu lambda supplies). -/
def run_social_network_search (search_type : String) (env : ActionEnv) : ActionOut :=
  let query := env.inputs 0
  runHtmlLookup ("Enter the " ++ search_type ++ " for social network search: ")
    ("https://www.socialnetworksearch-example.com/search?" ++ search_type ++ "=" ++ query)
    ("Social Network Search Results for " ++ search_type ++ " " ++ query ++ ":")
    ("Failed to perform social network search for " ++ search_type ++ " " ++ query)
    "div" "result" env.http

/-- ReconSouthAfrica.run_google_dorks. -/
def run_google_dorks (env : ActionEnv) : ActionOut :=
  let search_query := env.inputs 0
  runHtmlLookup "Enter the Google Dorks query: "
    ("https://www.google.com/search?q=" ++ search_query)
    ("Google Dorks Search Results for query: " ++ search_query)
    ("Failed to perform Google Dorks search for query: " ++ search_query)
    "h3" "r" env.http

/-- ReconSouthAfrica.run_real_name_search_pattern support: the word
characters of the regex module (ASCII view, matching the inputs the
program handles). -/
def isWordChar (c : Char) : Bool := c.isAlphanum || c == '_'

/-- Case-insensitive test that the second list begins the first. -/
def ciStartsWith : List Char → List Char → Bool
  | _, [] => true
  | [], _ :: _ => false
  | h :: hs, n :: ns => (h.toLower == n.toLower) && ciStartsWith (hs) (ns)

/-- Word-boundary test of re: at the current position, given whether the
previous character is a word character and the remaining text. -/
def boundaryHere (prevW : Bool) (text : List Char) : Bool :=
  prevW != (match text with | c :: _ => isWordChar c | [] => false)

/-- Whether the compiled pattern of run_real_name_search_pattern, namely
a backslash-b, the escaped name, and a backslash-b, with IGNORECASE,
matches at the current position. -/
def matchHere (name : List Char) (prevW : Bool) (text : List Char) : Bool :=
  match name with
  | [] => boundaryHere prevW text
  | c :: _ =>
    (prevW != isWordChar c) && ciStartsWith text name &&
    (match name.getLast? with
     | some l =>
       isWordChar l != (match text.drop name.length with
                        | d :: _ => isWordChar d
                        | [] => false)
     | none => true)

/-- Scanner of re.findall over the text: non-overlapping matches left to
right, continuing after each match (advancing one character after a
zero-width match).  The fuel argument bounds the scan by the text length. -/
def reFindallCountAux : Nat → List Char → Bool → List Char → Nat
  | 0, _, _, _ => 0
  | fuel + 1, name, prevW, text =>
    if matchHere name prevW text then
      match name with
      | [] =>
        match text with
        | [] => 1
        | c :: rest => 1 + reFindallCountAux fuel name (isWordChar c) rest
      | _ :: _ =>
        let rest := text.drop name.length
        let lastW := match name.getLast? with
                     | some l => isWordChar l
                     | none => prevW
        1 + reFindallCountAux fuel name lastW rest
    else
      match text with
      | [] => 0
      | c :: rest => reFindallCountAux fuel name (isWordChar c) rest

/-- Number of matches re.findall reports for the whole-word
case-insensitive pattern built from the (escaped, hence literal) name. -/
def reFindallCount (name text : String) : Nat :=
  reFindallCountAux (text.length + 1) name.data false text.data

/-- The hardcoded sample sentence of run_real_name_search_pattern. -/
def sample_text : String := "Example text with real name John Doe and other content."

/-- ReconSouthAfrica.run_real_name_search_pattern: purely local matching
of the input against sample_text, no request. -/
def run_real_name_search_pattern (env : ActionEnv) : ActionOut :=
  let name := env.inputs 0
  ⟨["Searching for patterns matching real name: " ++ name,
    "Found " ++ toString (reFindallCount name sample_text) ++
      " matches for name " ++ name ++ " in sample text."],
   ["Enter the real name for pattern search: "], [], [], 0, 0, none⟩

/-- ReconSouthAfrica.run_username_search (stub). -/
def run_username_search (env : ActionEnv) : ActionOut :=
  let username := env.inputs 0
  ⟨["Searching for information related to username: " ++ username,
    "Username " ++ username ++ " found on various platforms."],
   ["Enter the username for search: "], [], [], 0, 0, none⟩

/-- ReconSouthAfrica.run_email_address_search (stub). -/
def run_email_address_search (env : ActionEnv) : ActionOut :=
  let email := env.inputs 0
  ⟨["Searching for information related to email address: " ++ email,
    "Information related to " ++ email ++ " found."],
   ["Enter the email address for search: "], [], [], 0, 0, none⟩

/-- ReconSouthAfrica.run_compromised_databases_search (stub). -/
def run_compromised_databases_search (env : ActionEnv) : ActionOut :=
  let query := env.inputs 0
  ⟨["Searching for compromised databases related to: " ++ query,
    "Compromised databases related to " ++ query ++ " found."],
   ["Enter the query for compromised databases search: "], [], [], 0, 0, none⟩

/-- ReconSouthAfrica.run_phone_number_search (stub). -/
def run_phone_number_search (env : ActionEnv) : ActionOut :=
  let phone_number := env.inputs 0
  ⟨["Searching for information related to phone number: " ++ phone_number,
    "Information related to phone number " ++ phone_number ++ " found."],
   ["Enter the phone number for search: "], [], [], 0, 0, none⟩

/-- ReconSouthAfrica.run_whois (stub). -/
def run_whois (env : ActionEnv) : ActionOut :=
  let domain := env.inputs 0
  ⟨["Performing Whois lookup for domain: " ++ domain,
    "Whois information for " ++ domain ++ "."],
   ["Enter the domain for Whois lookup: "], [], [], 0, 0, none⟩

/-- ReconSouthAfrica.run_reverse_whois (stub). -/
def run_reverse_whois (env : ActionEnv) : ActionOut :=
  let name := env.inputs 0
  ⟨["Performing Reverse Whois lookup for name: " ++ name,
    "Reverse Whois information for " ++ name ++ "."],
   ["Enter the name for Reverse Whois lookup: "], [], [], 0, 0, none⟩

/-- ReconSouthAfrica.run_passive_dns (stub). -/
def run_passive_dns (env : ActionEnv) : ActionOut :=
  let query := env.inputs 0
  ⟨["Performing Passive DNS lookup for query: " ++ query,
    "Passive DNS information for " ++ query ++ "."],
   ["Enter the query for Passive DNS lookup: "], [], [], 0, 0, none⟩

/-- ReconSouthAfrica.run_geolocation_tools: prints a 2-item sub-menu, reads
a choice, dispatches to run_ip_geolocation on the string 1, runs an inline
location stub on the string 2, and silently falls through on anything
else. -/
def run_geolocation_tools (env : ActionEnv) : ActionOut :=
  let headerL := ["Geolocation Tools:", "1. IP-based Geolocation", "2. Location Search"]
  let choice := env.inputs 0
  if choice = "1" then
    let sub := run_ip_geolocation (shiftInputs env)
    ⟨headerL ++ sub.lines, "Enter your choice (1-2): " :: sub.prompts,
     sub.logs, sub.requests, sub.geoOpened, sub.geoClosed, sub.exc⟩
  else if choice = "2" then
    let location := env.inputs 1
    ⟨headerL ++ ["Performing location search for: " ++ location,
                 "Location information for " ++ location ++ "."],
     ["Enter your choice (1-2): ", "Enter the location to search: "],
     [], [], 0, 0, none⟩
  else
    ⟨headerL, ["Enter your choice (1-2): "], [], [], 0, 0, none⟩

/-- ReconSouthAfrica.print_help. -/
def print_help : ActionOut :=
  ⟨["Help:", "Select an option from the menu for details on each action."],
   [], [], [], 0, 0, none⟩

/-- ReconSouthAfrica.print_settings. -/
def print_settings : ActionOut :=
  ⟨["Settings functionality not implemented yet."], [], [], [], 0, 0, none⟩

/-- ReconSouthAfrica.exit_program: prints the farewell, then exit() raises
SystemExit, which propagates out of the procedure. -/
def exit_program : ActionOut :=
  ⟨["Exiting..."], [], [], [], 0, 0, some .systemExit⟩

/-- The procedures an entry of the menu can be bound to; a value of this
type stands for the bound callable (the lambdas of the social-network
entries carry their search_type argument). -/
inductive ActionId where
  | domainLookup
  | ipGeolocation
  | publicRecords
  | reverseImageSearch
  | sapsWantedMissing
  | internationalWantedMissing
  | socialNetworkSearch (search_type : String)
  | realNameSearchPattern
  | googleDorks
  | usernameSearch
  | emailAddressSearch
  | compromisedDatabasesSearch
  | phoneNumberSearch
  | whois
  | reverseWhois
  | passiveDns
  | geolocationTools
  | help
  | settings
  | exitProgram
deriving DecidableEq

/-- Invoking the procedure an ActionId stands for. -/
def runActionById : ActionId → ActionEnv → ActionOut
  | .domainLookup, env => run_domain_lookup env
  | .ipGeolocation, env => run_ip_geolocation env
  | .publicRecords, env => run_public_records env
  | .reverseImageSearch, env => run_reverse_image_search env
  | .sapsWantedMissing, env => run_saps_wanted_missing env
  | .internationalWantedMissing, env => run_international_wanted_missing env
  | .socialNetworkSearch t, env => run_social_network_search t env
  | .realNameSearchPattern, env => run_real_name_search_pattern env
  | .googleDorks, env => run_google_dorks env
  | .usernameSearch, env => run_username_search env
  | .emailAddressSearch, env => run_email_address_search env
  | .compromisedDatabasesSearch, env => run_compromised_databases_search env
  | .phoneNumberSearch, env => run_phone_number_search env
  | .whois, env => run_whois env
  | .reverseWhois, env => run_reverse_whois env
  | .passiveDns, env => run_passive_dns env
  | .geolocationTools, env => run_geolocation_tools env
  | .help, _ => print_help
  | .settings, _ => print_settings
  | .exitProgram, _ => exit_program

/-- The 22-entry menu table of ReconSouthAfrica.print_menu, in source
order: label and bound procedure. -/
def print_menu_options : List (String × ActionId) :=
  [("Domain Lookup", .domainLookup),
   ("IP Geolocation", .ipGeolocation),
   ("Public Records Search", .publicRecords),
   ("Reverse Image Search (TinEye)", .reverseImageSearch),
   ("SAPS Wanted/Missing Persons", .sapsWantedMissing),
   ("International Wanted/Missing Persons", .internationalWantedMissing),
   ("Social Network Search by Email", .socialNetworkSearch "email"),
   ("Social Network Search by IP", .socialNetworkSearch "ip"),
   ("Social Network Search by VIN", .socialNetworkSearch "vin"),
   ("Real Name Search Pattern", .realNameSearchPattern),
   ("Google Dorks", .googleDorks),
   ("Username Search", .usernameSearch),
   ("Email Address Search", .emailAddressSearch),
   ("Compromised Databases Search", .compromisedDatabasesSearch),
   ("Phone Number Search", .phoneNumberSearch),
   ("Whois Lookup", .whois),
   ("Reverse Whois Lookup", .reverseWhois),
   ("Passive DNS Lookup", .passiveDns),
   ("Geolocation Tools", .geolocationTools),
   ("Help", .help),
   ("Settings", .settings),
   ("Exit", .exitProgram)]

/-- The console lines print_menu produces: a header, then each entry as
its 1-based index, a dot, a space and the label. -/
def menuLines : List String :=
  "Choose an action:" ::
    print_menu_options.enum.map (fun p => toString (p.1 + 1) ++ ". " ++ p.2.1)

/-- The 19-entry dispatch list of ReconSouthAfrica.run_menu_choice, in
source order (transcribed independently of print_menu_options). -/
def run_menu_choice_list : List ActionId :=
  [.domainLookup,
   .ipGeolocation,
   .publicRecords,
   .reverseImageSearch,
   .sapsWantedMissing,
   .internationalWantedMissing,
   .socialNetworkSearch "email",
   .socialNetworkSearch "ip",
   .socialNetworkSearch "vin",
   .realNameSearchPattern,
   .googleDorks,
   .usernameSearch,
   .emailAddressSearch,
   .compromisedDatabasesSearch,
   .phoneNumberSearch,
   .whois,
   .reverseWhois,
   .passiveDns,
   .geolocationTools]

/-- Python list subscripting with an integer index: a negative index
counts from the end; an index out of range raises IndexError. -/
def pyIndex {α : Type} (xs : List α) (i : Int) : Except PyExc α :=
  let j := if i < 0 then i + xs.length else i
  if h : 0 ≤ j ∧ j.toNat < xs.length then .ok (xs.get ⟨j.toNat, h.2⟩)
  else .error .indexError

/-- The entry run_menu_choice selects: menu_options[choice - 1]. -/
def run_menu_choice_sel (choice : Int) : Except PyExc ActionId :=
  pyIndex run_menu_choice_list (choice - 1)

/-- ReconSouthAfrica.run_menu_choice: select by position, then call. -/
def run_menu_choice (choice : Int) (env : ActionEnv) : ActionOut :=
  match run_menu_choice_sel choice with
  | .ok a => runActionById a env
  | .error e => ⟨[], [], [], [], 0, 0, some e⟩

/-- Python str.strip() as applied to the menu input: whitespace removal at
both ends (ASCII whitespace view; the unicode whitespace classes of
Python are not modelled, no claim depends on them). -/
def pyStrip (s : String) : String :=
  String.mk (((s.data.dropWhile Char.isWhitespace).reverse.dropWhile Char.isWhitespace).reverse)

/-- Digits-only reading of a decimal numeral; none on the empty list or
any non-digit (underscore grouping and non-ASCII digits of Python int()
are not modelled, no claim depends on them). -/
def digitsToNatAux : List Char → Nat → Option Nat
  | [], acc => some acc
  | c :: cs, acc =>
    if c.isDigit then digitsToNatAux cs (acc * 10 + (c.toNat - 48)) else none

/-- Digits of a nonempty numeral to its value. -/
def digitsToNat : List Char → Option Nat
  | [] => none
  | cs => digitsToNatAux cs 0

/-- Python int() on an already-stripped string: an optional sign then a
nonempty run of digits; anything else raises ValueError (modelled here as
none). -/
def pyParseInt (s : String) : Option Int :=
  match s.data with
  | '+' :: rest => (digitsToNat rest).map (fun n => (n : Int))
  | '-' :: rest => (digitsToNat rest).map (fun n => -(n : Int))
  | cs => (digitsToNat cs).map (fun n => (n : Int))

/-- The if/elif chain of ReconSouthAfrica.start for an in-range choice:
20 is Help, 21 is Settings, 22 is Exit, anything else goes through
run_menu_choice. -/
def dispatchOut (choice : Int) (env : ActionEnv) : ActionOut :=
  if choice = 20 then runActionById .help env
  else if choice = 21 then runActionById .settings env
  else if choice = 22 then runActionById .exitProgram env
  else run_menu_choice choice env

/-- The procedure the same chain binds the choice to (none when
run_menu_choice would raise IndexError instead of invoking anything). -/
def dispatchTarget (choice : Int) : Option ActionId :=
  if choice = 20 then some .help
  else if choice = 21 then some .settings
  else if choice = 22 then some .exitProgram
  else (run_menu_choice_sel choice).toOption

/-- How one iteration of the start() loop ends: back to the prompt, the
process terminated by the SystemExit of exit(), or the process killed by
an uncaught exception escaping start(). -/
inductive LoopOutcome where
  | running
  | terminated
  | crashed (e : PyExc)
deriving DecidableEq

/-- Observable behaviour of one iteration of the start() loop. -/
structure StepRes where
  lines : List String
  logs : List (Severity × String)
  requests : List String
  geoOpened : Nat
  geoClosed : Nat
  invoked : Option ActionId
  outcome : LoopOutcome
deriving DecidableEq

/-- The invalid-input message of the except ValueError arm of start(). -/
def invalidInputMsg : String := "Invalid input. Please enter a number."

/-- The out-of-range message of start(). -/
def invalidChoiceMsg : String := "Invalid choice. Please enter a number between 1 and 22."

/-- Body of one start() iteration once int(input(...).strip()) has been
evaluated (none = int raised ValueError).  The try block of start() wraps
the dispatch as well, so a ValueError escaping the invoked action is
caught by the same except arm and prints invalidInputMsg; a SystemExit
(only exit() raises one) propagates and terminates the process; any other
exception escapes start() and crashes the process. -/
def startStepParsed (parsed : Option Int) (env : ActionEnv) : StepRes :=
  match parsed with
  | none => ⟨menuLines ++ [invalidInputMsg], [], [], 0, 0, none, .running⟩
  | some choice =>
    if 1 ≤ choice ∧ choice ≤ 22 then
      let out := dispatchOut choice env
      let inv := dispatchTarget choice
      match out.exc with
      | none =>
        ⟨menuLines ++ out.lines, out.logs, out.requests,
         out.geoOpened, out.geoClosed, inv, .running⟩
      | some .systemExit =>
        ⟨menuLines ++ out.lines, out.logs, out.requests,
         out.geoOpened, out.geoClosed, inv, .terminated⟩
      | some (.valueError _) =>
        ⟨menuLines ++ out.lines ++ [invalidInputMsg], out.logs, out.requests,
         out.geoOpened, out.geoClosed, inv, .running⟩
      | some e =>
        ⟨menuLines ++ out.lines, out.logs, out.requests,
         out.geoOpened, out.geoClosed, inv, .crashed e⟩
    else
      ⟨menuLines ++ [invalidChoiceMsg], [], [], 0, 0, none, .running⟩

/-- One iteration of the while-True loop of ReconSouthAfrica.start, given
the raw menu input line and the iteration's environment. -/
def startStep (line : String) (env : ActionEnv) : StepRes :=
  startStepParsed (pyParseInt (pyStrip line)) env

/-- Concrete environments and bodies used by the witness and
counterexample theorems below. -/
def bodyNoJson : HttpBody := ⟨⟨fun _ _ => []⟩, none⟩

/-- A 200 body whose JSON object lacks the records key. -/
def bodyNoRecords : HttpBody := ⟨⟨fun _ _ => []⟩, some (.obj [("foo", .null)])⟩

/-- A 200 body whose JSON document is a top-level array. -/
def bodyArrTop : HttpBody := ⟨⟨fun _ _ => []⟩, some (.arr [])⟩

/-- A generic environment whose every lookup fails. -/
def env0 : ActionEnv := ⟨fun _ => "x", .transportError "err", .openError "missing"⟩

/-- Environment reaching the missing-records KeyError of run_public_records. -/
def envNoRecords : ActionEnv := ⟨fun _ => "smith", .response 200 bodyNoRecords, .openError "m"⟩

/-- Environment reaching the json-decode ValueError of run_public_records. -/
def envBadJson : ActionEnv := ⟨fun _ => "smith", .response 200 bodyNoJson, .openError "m"⟩

/-- Environment reaching the TypeError of subscripting a top-level array. -/
def envArrTop : ActionEnv := ⟨fun _ => "smith", .response 200 bodyArrTop, .openError "m"⟩

/-- Environment answering 3 to every prompt. -/
def envThree : ActionEnv := ⟨fun _ => "3", .transportError "err", .openError "missing"⟩

/-- Environment answering alice to every prompt. -/
def envAlice : ActionEnv := ⟨fun _ => "alice", .transportError "err", .openError "missing"⟩

/-- Case-sensitive list test that the second list begins the first. -/
def startsWithCS : List Char → List Char → Bool
  | _, [] => true
  | [], _ :: _ => false
  | h :: hs, n :: ns => (h == n) && startsWithCS hs ns

/-- Whether the second list occurs contiguously inside the first. -/
def containsSub : List Char → List Char → Bool
  | [], needle => needle.isEmpty
  | h :: t, needle => startsWithCS (h :: t) needle || containsSub t needle

/-- Whether pat occurs verbatim inside hay. -/
def strContains (hay pat : String) : Bool := containsSub hay.data pat.data

lemma runHtmlLookup_exc (p u hd f t c : String) (http : HttpOutcome) :
    (runHtmlLookup p u hd f t c http).exc = none := by
  simp only [runHtmlLookup]
  split <;> rfl

lemma run_ip_geolocation_exc (env : ActionEnv) :
    (run_ip_geolocation env).exc = none := by
  simp only [run_ip_geolocation]
  cases env.geo <;> rfl

lemma run_geolocation_tools_exc (env : ActionEnv) :
    (run_geolocation_tools env).exc = none := by
  simp only [run_geolocation_tools]
  split
  · exact run_ip_geolocation_exc _
  · split <;> rfl

lemma pyGetItem_error_shape (v : JsonVal) (key : String) (e : PyExc)
    (h : pyGetItem v key = .error e) :
    (∃ k, e = .keyError k) ∨ ∃ m, e = .typeError m := by
  cases v with
  | obj fields =>
    simp only [pyGetItem] at h
    cases hlf : lookupField fields key with
    | some x => rw [hlf] at h; cases h
    | none =>
      rw [hlf] at h
      injection h with h2
      exact .inl ⟨key, h2.symm⟩
  | str s =>
    simp only [pyGetItem] at h
    injection h with h2
    exact .inr ⟨_, h2.symm⟩
  | num n =>
    simp only [pyGetItem] at h
    injection h with h2
    exact .inr ⟨_, h2.symm⟩
  | bool b =>
    simp only [pyGetItem] at h
    injection h with h2
    exact .inr ⟨_, h2.symm⟩
  | null =>
    simp only [pyGetItem] at h
    injection h with h2
    exact .inr ⟨_, h2.symm⟩
  | arr xs =>
    simp only [pyGetItem] at h
    injection h with h2
    exact .inr ⟨_, h2.symm⟩

lemma pyIterElems_error_shape (v : JsonVal) (e : PyExc)
    (h : pyIterElems v = .error e) : ∃ m, e = .typeError m := by
  cases v with
  | num n =>
    simp only [pyIterElems] at h
    injection h with h2
    exact ⟨_, h2.symm⟩
  | bool b =>
    simp only [pyIterElems] at h
    injection h with h2
    exact ⟨_, h2.symm⟩
  | null =>
    simp only [pyIterElems] at h
    injection h with h2
    exact ⟨_, h2.symm⟩
  | arr xs => simp [pyIterElems] at h
  | obj fields => simp [pyIterElems] at h
  | str s => simp [pyIterElems] at h

lemma run_public_records_exc (env : ActionEnv) (e : PyExc)
    (h : (run_public_records env).exc = some e) : e ≠ .systemExit := by
  simp only [run_public_records] at h
  split at h
  · simp at h
  · split at h
    · simp at h
      subst h
      simp
    · split at h
      · rename_i heq
        simp at h
        subst h
        rcases pyGetItem_error_shape _ _ _ heq with ⟨k, hk⟩ | ⟨m, hm⟩
        · simp [hk]
        · simp [hm]
      · split at h
        · rename_i heq3
          simp at h
          subst h
          rcases pyIterElems_error_shape _ _ heq3 with ⟨m, hm⟩
          simp [hm]
        · simp at h

lemma pyIndex_error {α : Type} (xs : List α) (i : Int) (e : PyExc)
    (h : pyIndex xs i = .error e) : e = .indexError := by
  simp only [pyIndex] at h
  split at h <;> split at h <;> simp at h <;> exact h.symm

lemma pyIndex_ok_mem {α : Type} (xs : List α) (i : Int) (a : α)
    (h : pyIndex xs i = .ok a) : a ∈ xs := by
  simp only [pyIndex] at h
  split at h <;> split at h <;> simp at h <;> (subst h; exact List.getElem_mem _)

lemma mem_run_menu_choice_list_exc (a : ActionId) (ha : a ∈ run_menu_choice_list)
    (env : ActionEnv) (e : PyExc) (h : (runActionById a env).exc = some e) :
    e ≠ .systemExit := by
  simp only [run_menu_choice_list, List.mem_cons, List.not_mem_nil, or_false] at ha
  rcases ha with rfl | rfl | rfl | rfl | rfl | rfl | rfl | rfl | rfl | rfl | rfl | rfl | rfl | rfl | rfl | rfl | rfl | rfl | rfl
  · rw [show (runActionById .domainLookup env).exc = none from runHtmlLookup_exc _ _ _ _ _ _ _] at h; cases h
  · rw [show (runActionById .ipGeolocation env).exc = none from run_ip_geolocation_exc _] at h; cases h
  · exact run_public_records_exc env e h
  · rw [show (runActionById .reverseImageSearch env).exc = none from runHtmlLookup_exc _ _ _ _ _ _ _] at h; cases h
  · rw [show (runActionById .sapsWantedMissing env).exc = none from runHtmlLookup_exc _ _ _ _ _ _ _] at h; cases h
  · rw [show (runActionById .internationalWantedMissing env).exc = none from runHtmlLookup_exc _ _ _ _ _ _ _] at h; cases h
  · rw [show (runActionById (.socialNetworkSearch "email") env).exc = none from runHtmlLookup_exc _ _ _ _ _ _ _] at h; cases h
  · rw [show (runActionById (.socialNetworkSearch "ip") env).exc = none from runHtmlLookup_exc _ _ _ _ _ _ _] at h; cases h
  · rw [show (runActionById (.socialNetworkSearch "vin") env).exc = none from runHtmlLookup_exc _ _ _ _ _ _ _] at h; cases h
  · cases h
  · rw [show (runActionById .googleDorks env).exc = none from runHtmlLookup_exc _ _ _ _ _ _ _] at h; cases h
  · cases h
  · cases h
  · cases h
  · cases h
  · cases h
  · cases h
  · cases h
  · rw [show (runActionById .geolocationTools env).exc = none from run_geolocation_tools_exc _] at h; cases h

lemma dispatchOut_exc_ne_systemExit (choice : Int) (env : ActionEnv)
    (hne : choice ≠ 22) (e : PyExc) (h : (dispatchOut choice env).exc = some e) :
    e ≠ .systemExit := by
  by_cases h20 : choice = 20
  · rw [dispatchOut, if_pos h20] at h
    simp [runActionById, print_help] at h
  · by_cases h21 : choice = 21
    · rw [dispatchOut, if_neg h20, if_pos h21] at h
      simp [runActionById, print_settings] at h
    · rw [dispatchOut, if_neg h20, if_neg h21, if_neg hne] at h
      rw [run_menu_choice] at h
      cases heq : run_menu_choice_sel choice with
      | ok a =>
        rw [heq] at h
        have hmem : a ∈ run_menu_choice_list := by
          rw [run_menu_choice_sel] at heq
          exact pyIndex_ok_mem _ _ _ heq
        exact mem_run_menu_choice_list_exc a hmem env e h
      | error e2 =>
        rw [heq] at h
        simp at h
        subst h
        rw [run_menu_choice_sel] at heq
        rw [pyIndex_error _ _ _ heq]
        simp

/-- C3, counterexample: a 304 response has a non-2xx status, yet
make_request returns the populated response and writes no log entry and
prints nothing, because raise_for_status only raises for 4xx/5xx.  This
refutes the claim that every non-2xx status yields an absent result with
one log entry and one console message. -/
theorem claim3_counterexample :
    ¬(200 ≤ 304 ∧ 304 < 300) ∧
    (make_request "https://u.example" (.response 304 bodyNoJson)).result.isSome = true ∧
    (make_request "https://u.example" (.response 304 bodyNoJson)).logs = [] ∧
    (make_request "https://u.example" (.response 304 bodyNoJson)).lines = [] :=
  ⟨by decide, rfl, rfl, rfl⟩

/-- C3, amended: make_request makes exactly one GET attempt; a transport
error or a 4xx/5xx status yields an absent result, exactly one error log
entry and exactly one console line; any other status (2xx, but also 1xx
and 3xx) yields the populated response with no log entry and no console
line. -/
theorem claim3_fetch_wrapper : ∀ (url : String) (http : HttpOutcome),
    (make_request url http).attempts = 1 ∧
    (∀ msg, http = .transportError msg →
      (make_request url http).result = none ∧
      (make_request url http).logs = [(.error, "Request failed: " ++ msg)] ∧
      (make_request url http).lines = ["Request failed: " ++ msg]) ∧
    (∀ status body, http = .response status body → 400 ≤ status → status < 600 →
      (make_request url http).result = none ∧
      (make_request url http).logs = [(.error, "Request failed: " ++ httpErrorMsg status url)] ∧
      (make_request url http).lines = ["Request failed: " ++ httpErrorMsg status url]) ∧
    (∀ status body, http = .response status body → ¬(400 ≤ status ∧ status < 600) →
      (make_request url http).result = some (status, body) ∧
      (make_request url http).logs = [] ∧
      (make_request url http).lines = []) := by
  intro url http
  refine ⟨?_, ?_, ?_, ?_⟩
  · cases http with
    | transportError m => rfl
    | response s b =>
      simp only [make_request]
      split <;> rfl
  · rintro msg rfl
    exact ⟨rfl, rfl, rfl⟩
  · rintro status body rfl h4 h6
    simp only [make_request]
    rw [if_pos ⟨h4, h6⟩]
    exact ⟨rfl, rfl, rfl⟩
  · rintro status body rfl hn
    simp only [make_request]
    rw [if_neg hn]
    exact ⟨rfl, rfl, rfl⟩

/-- C3, witness of the amended theorem at concrete outcomes. -/
theorem claim3_fetch_wrapper_witness :
    (make_request "u" (.transportError "boom")).result = none ∧
    (make_request "u" (.response 404 bodyNoJson)).result = none ∧
    (make_request "u" (.response 404 bodyNoJson)).logs.length = 1 ∧
    (make_request "u" (.response 200 bodyNoJson)).result = some (200, bodyNoJson) ∧
    (make_request "u" (.response 200 bodyNoJson)).logs = [] ∧
    (make_request "u" (.transportError "boom")).attempts = 1 :=
  ⟨((claim3_fetch_wrapper "u" _).2.1 "boom" rfl).1,
   ((claim3_fetch_wrapper "u" _).2.2.1 404 bodyNoJson rfl (by decide) (by decide)).1,
   by rw [((claim3_fetch_wrapper "u" _).2.2.1 404 bodyNoJson rfl (by decide) (by decide)).2.1]; rfl,
   ((claim3_fetch_wrapper "u" _).2.2.2 200 bodyNoJson rfl (by decide)).1,
   ((claim3_fetch_wrapper "u" _).2.2.2 200 bodyNoJson rfl (by decide)).2.1,
   (claim3_fetch_wrapper "u" _).1⟩

/-- C4: the real-name pattern search matches locally against the single
hardcoded sample sentence (no request, no geo access, exactly the two
printed lines reporting the count), the count for the input John Doe is
1 and for Jane is 0; the further instances witness case-insensitivity
(john doe also counts 1) and whole-word matching (the substring ohn,
although present inside John, counts 0). -/
theorem claim4_real_name_pattern : ∀ env : ActionEnv,
    run_real_name_search_pattern env =
      ⟨["Searching for patterns matching real name: " ++ env.inputs 0,
        "Found " ++ toString (reFindallCount (env.inputs 0) sample_text) ++
          " matches for name " ++ env.inputs 0 ++ " in sample text."],
       ["Enter the real name for pattern search: "], [], [], 0, 0, none⟩ ∧
    reFindallCount "John Doe" sample_text = 1 ∧
    reFindallCount "Jane" sample_text = 0 ∧
    reFindallCount "john doe" sample_text = 1 ∧
    reFindallCount "ohn" sample_text = 0 :=
  fun _ => ⟨rfl, by decide, by decide, by decide, by decide⟩

/-- C5: run_ip_geolocation returns normally on every environment and
releases the geo-database reader exactly as often as it acquired it; on
an open failure it acquires nothing and logs and prints one failure line;
on a lookup failure it releases the one acquired reader and logs and
prints one failure line; on success it releases the one acquired reader,
logs nothing and prints the five record lines. -/
theorem claim5_geo_resource_and_errors : ∀ env : ActionEnv,
    ((run_ip_geolocation env).exc = none ∧
     (run_ip_geolocation env).geoClosed = (run_ip_geolocation env).geoOpened) ∧
    (∀ msg, env.geo = .openError msg →
      run_ip_geolocation env =
        ⟨["Failed to geolocate IP address " ++ env.inputs 0 ++ ": " ++ msg],
         ["Enter the IP address to geolocate: "],
         [(.error, "Failed to geolocate IP address " ++ env.inputs 0 ++ ": " ++ msg)],
         [], 0, 0, none⟩) ∧
    (∀ msg, env.geo = .lookupError msg →
      run_ip_geolocation env =
        ⟨["Failed to geolocate IP address " ++ env.inputs 0 ++ ": " ++ msg],
         ["Enter the IP address to geolocate: "],
         [(.error, "Failed to geolocate IP address " ++ env.inputs 0 ++ ": " ++ msg)],
         [], 1, 1, none⟩) ∧
    (∀ city country lat lon, env.geo = .found city country lat lon →
      run_ip_geolocation env =
        ⟨["Geolocation for IP " ++ env.inputs 0 ++ ":",
          "City: " ++ pyOptStr city,
          "Country: " ++ pyOptStr country,
          "Latitude: " ++ lat,
          "Longitude: " ++ lon],
         ["Enter the IP address to geolocate: "], [], [], 1, 1, none⟩) := by
  intro env
  refine ⟨⟨run_ip_geolocation_exc env, ?_⟩, ?_, ?_, ?_⟩
  · simp only [run_ip_geolocation]
    cases env.geo <;> rfl
  · intro msg hg
    simp only [run_ip_geolocation, hg]
  · intro msg hg
    simp only [run_ip_geolocation, hg]
  · intro city country lat lon hg
    simp only [run_ip_geolocation, hg]

/-- C5, witness at the concrete environment whose geo-database open
fails. -/
theorem claim5_geo_witness :
    run_ip_geolocation env0 =
      ⟨["Failed to geolocate IP address x: missing"],
       ["Enter the IP address to geolocate: "],
       [(.error, "Failed to geolocate IP address x: missing")], [], 0, 0, none⟩ :=
  (claim5_geo_resource_and_errors env0).2.1 "missing" rfl

/-- C8: every stub action (username, email-address, compromised-databases,
phone-number, whois, reverse-whois, passive-DNS) prints exactly the two
fixed-format lines interpolating the input, performs no HTTP request, no
geo-database access and raises nothing; in particular the username search
on the input alice prints exactly two lines, each containing alice. -/
theorem claim8_stub_actions : ∀ env : ActionEnv,
    run_username_search env =
      ⟨["Searching for information related to username: " ++ env.inputs 0,
        "Username " ++ env.inputs 0 ++ " found on various platforms."],
       ["Enter the username for search: "], [], [], 0, 0, none⟩ ∧
    run_email_address_search env =
      ⟨["Searching for information related to email address: " ++ env.inputs 0,
        "Information related to " ++ env.inputs 0 ++ " found."],
       ["Enter the email address for search: "], [], [], 0, 0, none⟩ ∧
    run_compromised_databases_search env =
      ⟨["Searching for compromised databases related to: " ++ env.inputs 0,
        "Compromised databases related to " ++ env.inputs 0 ++ " found."],
       ["Enter the query for compromised databases search: "], [], [], 0, 0, none⟩ ∧
    run_phone_number_search env =
      ⟨["Searching for information related to phone number: " ++ env.inputs 0,
        "Information related to phone number " ++ env.inputs 0 ++ " found."],
       ["Enter the phone number for search: "], [], [], 0, 0, none⟩ ∧
    run_whois env =
      ⟨["Performing Whois lookup for domain: " ++ env.inputs 0,
        "Whois information for " ++ env.inputs 0 ++ "."],
       ["Enter the domain for Whois lookup: "], [], [], 0, 0, none⟩ ∧
    run_reverse_whois env =
      ⟨["Performing Reverse Whois lookup for name: " ++ env.inputs 0,
        "Reverse Whois information for " ++ env.inputs 0 ++ "."],
       ["Enter the name for Reverse Whois lookup: "], [], [], 0, 0, none⟩ ∧
    run_passive_dns env =
      ⟨["Performing Passive DNS lookup for query: " ++ env.inputs 0,
        "Passive DNS information for " ++ env.inputs 0 ++ "."],
       ["Enter the query for Passive DNS lookup: "], [], [], 0, 0, none⟩ ∧
    (run_username_search envAlice).lines.length = 2 ∧
    (run_username_search envAlice).lines.all (fun l => strContains l "alice") = true ∧
    (run_username_search envAlice).requests = [] :=
  fun _ => ⟨rfl, rfl, rfl, rfl, rfl, rfl, rfl, by decide, by decide, by decide⟩

/-- C10: when the Geolocation Tools sub-menu input is neither the string 1
nor the string 2, the procedure prints exactly the three sub-menu header
lines (no invalid-choice message), performs no request and no
geo-database access, returns normally, and the surrounding loop iteration
ends back in the Running state with only those lines after the menu. -/
theorem claim10_geotools_fallthrough : ∀ env : ActionEnv,
    env.inputs 0 ≠ "1" → env.inputs 0 ≠ "2" →
    (run_geolocation_tools env =
      ⟨["Geolocation Tools:", "1. IP-based Geolocation", "2. Location Search"],
       ["Enter your choice (1-2): "], [], [], 0, 0, none⟩) ∧
    (∀ line, pyParseInt (pyStrip line) = some 19 →
      (startStep line env).outcome = .running ∧
      (startStep line env).lines =
        menuLines ++ ["Geolocation Tools:", "1. IP-based Geolocation", "2. Location Search"]) := by
  intro env h1 h2
  have hmain : run_geolocation_tools env =
      ⟨["Geolocation Tools:", "1. IP-based Geolocation", "2. Location Search"],
       ["Enter your choice (1-2): "], [], [], 0, 0, none⟩ := by
    simp only [run_geolocation_tools]
    rw [if_neg h1, if_neg h2]
  refine ⟨hmain, ?_⟩
  intro line hp
  have hdo : dispatchOut 19 env = run_geolocation_tools env := rfl
  rw [startStep, hp]
  simp only [startStepParsed]
  rw [if_pos (show (1 : Int) ≤ 19 ∧ (19 : Int) ≤ 22 by decide)]
  rw [hdo, hmain]
  exact ⟨rfl, rfl⟩

/-- C10, witness at the concrete environment answering 3 to the sub-menu
prompt. -/
theorem claim10_geotools_witness :
    run_geolocation_tools envThree =
      ⟨["Geolocation Tools:", "1. IP-based Geolocation", "2. Location Search"],
       ["Enter your choice (1-2): "], [], [], 0, 0, none⟩ ∧
    (startStep "19" envThree).outcome = .running :=
  ⟨(claim10_geotools_fallthrough envThree (by decide) (by decide)).1,
   ((claim10_geotools_fallthrough envThree (by decide) (by decide)).2 "19" (by decide)).1⟩

/-- C7: a numeric menu input outside 1..22 makes the loop print exactly
the invalid-choice message after the menu and return to the prompt
without invoking any action (no invoked procedure, no request, no
geo-database access, no log); a non-numeric input likewise prints exactly
the invalid-input message and invokes nothing. -/
theorem claim7_invalid_inputs : ∀ (line : String) (env : ActionEnv),
    (pyParseInt (pyStrip line) = none →
      startStep line env = ⟨menuLines ++ [invalidInputMsg], [], [], 0, 0, none, .running⟩) ∧
    (∀ n, pyParseInt (pyStrip line) = some n → ¬(1 ≤ n ∧ n ≤ 22) →
      startStep line env = ⟨menuLines ++ [invalidChoiceMsg], [], [], 0, 0, none, .running⟩) := by
  intro line env
  constructor
  · intro hp
    rw [startStep, hp]
    rfl
  · intro n hp hn
    rw [startStep, hp]
    simp only [startStepParsed]
    rw [if_neg hn]

/-- C7, witness at a non-numeric input and at an out-of-range number. -/
theorem claim7_invalid_inputs_witness :
    startStep "abc" env0 = ⟨menuLines ++ [invalidInputMsg], [], [], 0, 0, none, .running⟩ ∧
    startStep "99" env0 = ⟨menuLines ++ [invalidChoiceMsg], [], [], 0, 0, none, .running⟩ :=
  ⟨(claim7_invalid_inputs "abc" env0).1 (by decide),
   (claim7_invalid_inputs "99" env0).2 99 (by decide) (by decide)⟩

/-- C2: for every in-range selection the loop iteration invokes exactly
the procedure bound to the label rendered at that position of the printed
menu: the 19-entry run_menu_choice list together with the special-cased
Help, Settings and Exit branches of start() agree position by position
with the 22-entry print_menu table, and Help and Settings are reached
through the same selection-to-invocation path (the invoked field of the
same startStep). -/
theorem claim2_menu_dispatch_agreement : ∀ (line : String) (env : ActionEnv) (s : Int),
    pyParseInt (pyStrip line) = some s → 1 ≤ s → s ≤ 22 →
    (startStep line env).invoked = (print_menu_options.get? (s - 1).toNat).map Prod.snd ∧
    (startStep line env).invoked = dispatchTarget s := by
  intro line env s hp h1 h2
  have hinv : (startStep line env).invoked = dispatchTarget s := by
    rw [startStep, hp]
    simp only [startStepParsed]
    rw [if_pos ⟨h1, h2⟩]
    cases hx : (dispatchOut s env).exc with
    | none => rfl
    | some e => cases e <;> rfl
  have htab : dispatchTarget s = (print_menu_options.get? (s - 1).toNat).map Prod.snd := by
    interval_cases s <;> decide
  exact ⟨hinv.trans htab, hinv⟩

/-- C2, witness: selection 20 resolves to the Help entry of the printed
menu, and selection 7 to the email social-network search. -/
theorem claim2_menu_dispatch_witness :
    (startStep "20" env0).invoked = (print_menu_options.get? ((20 - 1 : Int)).toNat).map Prod.snd ∧
    (startStep "7" env0).invoked = dispatchTarget 7 :=
  ⟨(claim2_menu_dispatch_agreement "20" env0 20 (by decide) (by decide) (by decide)).1,
   (claim2_menu_dispatch_agreement "7" env0 7 (by decide) (by decide) (by decide)).2⟩

/-- C9: when the action an in-range selection dispatches to raises a
ValueError (for example the JSON body parse of the public-records action
on an invalid body), the except ValueError arm of start() catches it,
prints the invalid-input message meant for non-numeric menu input after
the action's own lines, and the loop returns to the prompt. -/
theorem claim9_action_valueerror_caught : ∀ (line : String) (env : ActionEnv) (choice : Int) (m : String),
    pyParseInt (pyStrip line) = some choice → 1 ≤ choice → choice ≤ 22 →
    (dispatchOut choice env).exc = some (.valueError m) →
    (startStep line env).outcome = .running ∧
    (startStep line env).lines =
      menuLines ++ (dispatchOut choice env).lines ++ [invalidInputMsg] := by
  intro line env choice m hp h1 h2 hx
  rw [startStep, hp]
  simp only [startStepParsed]
  rw [if_pos ⟨h1, h2⟩, hx]
  exact ⟨rfl, rfl⟩

/-- C9, witness: selection 3 with a 200 response whose body is not valid
JSON ends back at the prompt with the invalid-input message printed. -/
theorem claim9_action_valueerror_witness :
    (startStep "3" envBadJson).outcome = .running ∧
    (startStep "3" envBadJson).lines =
      menuLines ++ (dispatchOut 3 envBadJson).lines ++ [invalidInputMsg] :=
  claim9_action_valueerror_caught "3" envBadJson 3
    "Expecting value: line 1 column 1 (char 0)"
    (by decide) (by decide) (by decide) (by decide)

/-- C1, counterexample: selection 3 (public records) on a 200 response
whose JSON object has no records key raises KeyError, which is not caught
at the dispatch boundary: the loop iteration crashes the process and
nothing is logged, refuting the claim that any failure inside an action
is caught, logged with the action name and followed by continued
prompting. -/
theorem claim1_counterexample :
    (startStep "3" envNoRecords).outcome = .crashed (.keyError "records") ∧
    (startStep "3" envNoRecords).logs = [] := by
  constructor <;> decide

/-- C1, amended: for an in-range non-exit selection, the loop returns to
the prompt when the action returns normally; a ValueError raised inside
the action is caught by the loop's own except ValueError arm, which
prints the generic invalid-input message without adding any log entry;
any other exception raised inside the action propagates past the
dispatch boundary and crashes the process. -/
theorem claim1_dispatch_boundary : ∀ (line : String) (env : ActionEnv) (choice : Int),
    pyParseInt (pyStrip line) = some choice → 1 ≤ choice → choice ≤ 21 →
    ((dispatchOut choice env).exc = none →
      (startStep line env).outcome = .running) ∧
    (∀ m, (dispatchOut choice env).exc = some (.valueError m) →
      (startStep line env).outcome = .running ∧
      (startStep line env).logs = (dispatchOut choice env).logs ∧
      (startStep line env).lines =
        menuLines ++ (dispatchOut choice env).lines ++ [invalidInputMsg]) ∧
    (∀ e, (dispatchOut choice env).exc = some e → (∀ m, e ≠ .valueError m) →
      (startStep line env).outcome = .crashed e) := by
  intro line env choice hp h1 h2
  have h22 : choice ≤ 22 := by omega
  refine ⟨?_, ?_, ?_⟩
  · intro hx
    rw [startStep, hp]
    simp only [startStepParsed]
    rw [if_pos ⟨h1, h22⟩, hx]
  · intro m hx
    rw [startStep, hp]
    simp only [startStepParsed]
    rw [if_pos ⟨h1, h22⟩, hx]
    exact ⟨rfl, rfl, rfl⟩
  · intro e hx hnv
    have hns : e ≠ .systemExit :=
      dispatchOut_exc_ne_systemExit choice env (by omega) e hx
    rw [startStep, hp]
    simp only [startStepParsed]
    rw [if_pos ⟨h1, h22⟩, hx]
    cases e with
    | valueError m => exact absurd rfl (hnv m)
    | systemExit => exact absurd rfl hns
    | keyError k => rfl
    | typeError m => rfl
    | indexError => rfl

/-- C1, witness of the amended theorem: a stub selection returns to the
prompt, and the missing-records KeyError of selection 3 crashes. -/
theorem claim1_dispatch_boundary_witness :
    (startStep "12" env0).outcome = .running ∧
    (startStep "3" envNoRecords).outcome = .crashed (.keyError "records") :=
  ⟨(claim1_dispatch_boundary "12" env0 12 (by decide) (by decide) (by decide)).1 (by decide),
   (claim1_dispatch_boundary "3" envNoRecords 3 (by decide) (by decide) (by decide)).2.2
     (.keyError "records") (by decide) (fun m => by simp)⟩

/-- C6, counterexample: selection 3 (a valid non-exit selection) with a
200 response whose JSON body is a top-level array raises TypeError, and
the loop iteration does not return to the Running state: the process
leaves the loop by a crash, not via Exit, refuting the claim that every
valid non-exit selection leads back to Running and that the only
transition out of Running is the Exit action. -/
theorem claim6_counterexample :
    (startStep "3" envArrTop).outcome =
      .crashed (.typeError "list indices must be integers or slices, not str") ∧
    pyParseInt (pyStrip "3") = some 3 ∧ (3 : Int) ≠ 22 := by
  refine ⟨by decide, by decide, by decide⟩

/-- C6, amended: Exit (selection 22) always prints the farewell and
terminates; termination of the loop (by the SystemExit of exit()) happens
only on selection 22 and always with the farewell printed; and every
iteration either returns to Running, terminates via Exit, or crashes on
an exception that is neither a ValueError nor SystemExit (the
two-state picture holds except that an action raising such an exception
kills the process instead of returning to Running). -/
theorem claim6_state_machine :
    (∀ env, (startStep "22" env).outcome = .terminated ∧
      (startStep "22" env).lines = menuLines ++ ["Exiting..."]) ∧
    (∀ line env, (startStep line env).outcome = .terminated →
      pyParseInt (pyStrip line) = some 22 ∧
      (startStep line env).lines = menuLines ++ ["Exiting..."]) ∧
    (∀ line env, (startStep line env).outcome = .running ∨
      (startStep line env).outcome = .terminated ∨
      ∃ e, (startStep line env).outcome = .crashed e ∧
        (∀ m, e ≠ .valueError m) ∧ e ≠ .systemExit) := by
  refine ⟨?_, ?_, ?_⟩
  · intro env
    exact ⟨rfl, rfl⟩
  · intro line env h
    cases hp : pyParseInt (pyStrip line) with
    | none =>
      rw [startStep, hp] at h
      simp [startStepParsed] at h
    | some c =>
      rw [startStep, hp] at h
      by_cases hr : 1 ≤ c ∧ c ≤ 22
      · simp only [startStepParsed] at h
        rw [if_pos hr] at h
        cases hx : (dispatchOut c env).exc with
        | none => rw [hx] at h; simp at h
        | some e =>
          cases e with
          | valueError m => rw [hx] at h; simp at h
          | keyError k => rw [hx] at h; simp at h
          | typeError m => rw [hx] at h; simp at h
          | indexError => rw [hx] at h; simp at h
          | systemExit =>
            by_cases hc : c = 22
            · subst hc
              refine ⟨rfl, ?_⟩
              rw [startStep, hp]
              rfl
            · exact absurd rfl (dispatchOut_exc_ne_systemExit c env hc _ hx)
      · simp only [startStepParsed] at h
        rw [if_neg hr] at h
        simp at h
  · intro line env
    cases hp : pyParseInt (pyStrip line) with
    | none =>
      left
      rw [startStep, hp]
      rfl
    | some c =>
      by_cases hr : 1 ≤ c ∧ c ≤ 22
      · cases hx : (dispatchOut c env).exc with
        | none =>
          left
          rw [startStep, hp]
          simp only [startStepParsed]
          rw [if_pos hr, hx]
        | some e =>
          cases e with
          | valueError m =>
            left
            rw [startStep, hp]
            simp only [startStepParsed]
            rw [if_pos hr, hx]
          | systemExit =>
            right; left
            rw [startStep, hp]
            simp only [startStepParsed]
            rw [if_pos hr, hx]
          | keyError k =>
            right; right
            refine ⟨.keyError k, ?_, fun m => by simp, by simp⟩
            rw [startStep, hp]
            simp only [startStepParsed]
            rw [if_pos hr, hx]
          | typeError m2 =>
            right; right
            refine ⟨.typeError m2, ?_, fun m => by simp, by simp⟩
            rw [startStep, hp]
            simp only [startStepParsed]
            rw [if_pos hr, hx]
          | indexError =>
            right; right
            refine ⟨.indexError, ?_, fun m => by simp, by simp⟩
            rw [startStep, hp]
            simp only [startStepParsed]
            rw [if_pos hr, hx]
      · left
        rw [startStep, hp]
        simp only [startStepParsed]
        rw [if_neg hr]

/-- C6, witness: the Exit selection on a concrete environment terminates,
and the terminated-only-via-22 implication is discharged on it. -/
theorem claim6_state_machine_witness :
    (startStep "22" env0).outcome = .terminated ∧
    pyParseInt (pyStrip "22") = some 22 :=
  ⟨(claim6_state_machine.1 env0).1,
   (claim6_state_machine.2.1 "22" env0 (claim6_state_machine.1 env0).1).1⟩
